import Mathlib

/-!
Shallow embedding of the Superstore dashboard's core pipeline (src/app.py):
dataset loading, the dependent categorical filter chain, the date-range
filter, KPI/growth computation, grouped aggregation, and the top-10
selection.  Numeric measure columns (Sales, Quantity, Profit) are embedded
as rationals, nullable categorical columns as `Option String`, and
Order Date as a natural-number day ordinal (only its ordering matters).
-/

namespace Superstore

/-- One order line item (one row of the Superstore table), with the columns
the pipeline reads.  Nullable categorical columns are `Option String`. -/
structure Row where
  order_id : String
  order_date : Nat
  region : Option String
  state : Option String
  city : String
  category : Option String
  sub_category : Option String
  product_name : String
  sales : ℚ
  quantity : ℚ
  profit : ℚ
  deriving DecidableEq

/-- The sidebar filter state: one selection per categorical level (the
string "All" meaning no restriction, as in the selectboxes of app.py
lines 26-61) plus the date range. -/
structure FilterState where
  selected_region : String
  selected_state : String
  selected_category : String
  selected_subcat : String
  from_date : Nat
  to_date : Nat
  deriving DecidableEq

/-- `sorted(series.dropna().unique())` (app.py lines 25, 35, 45, 55):
drop nulls, deduplicate keeping first occurrences, sort ascending. -/
def options_of (col : Row → Option String) (t : List Row) : List String :=
  ((t.filterMap col).dedup).insertionSort (· ≤ ·)

/-- One step of the filter chain (app.py lines 29-32, 39-42, 49-52, 59-61):
if the selection is not "All", keep the rows whose column equals the
selected value (a null never equals a selected string, as in pandas). -/
def filter_level (col : Row → Option String) (sel : String) (t : List Row) : List Row :=
  if sel ≠ "All" then t.filter (fun r => decide (col r = some sel)) else t

/-- `df_filtered_region` (app.py lines 29-32). -/
def df_filtered_region (t : List Row) (fs : FilterState) : List Row :=
  filter_level Row.region fs.selected_region t

/-- `df_filtered_state` (app.py lines 39-42). -/
def df_filtered_state (t : List Row) (fs : FilterState) : List Row :=
  filter_level Row.state fs.selected_state (df_filtered_region t fs)

/-- `df_filtered_category` (app.py lines 49-52). -/
def df_filtered_category (t : List Row) (fs : FilterState) : List Row :=
  filter_level Row.category fs.selected_category (df_filtered_state t fs)

/-- `df` after the Sub-Category filter (app.py lines 59-61): the view the
date-range defaults and the date filter are computed from. -/
def df_cat_view (t : List Row) (fs : FilterState) : List Row :=
  filter_level Row.sub_category fs.selected_subcat (df_filtered_category t fs)

/-- `all_regions` (app.py line 25): options offered for the Region level. -/
def all_regions (t : List Row) : List String :=
  options_of Row.region t

/-- `all_states` (app.py line 35): computed from the Region-filtered table. -/
def all_states (t : List Row) (fs : FilterState) : List String :=
  options_of Row.state (df_filtered_region t fs)

/-- `all_categories` (app.py line 45): computed from the State-filtered table. -/
def all_categories (t : List Row) (fs : FilterState) : List String :=
  options_of Row.category (df_filtered_state t fs)

/-- `all_subcats` (app.py line 55): computed from the Category-filtered table. -/
def all_subcats (t : List Row) (fs : FilterState) : List String :=
  options_of Row.sub_category (df_filtered_category t fs)

/-- `df["Order Date"].min()` (`none` plays the role of pandas `NaT` on an
empty column). -/
def min_order_date (v : List Row) : Option Nat :=
  (v.map Row.order_date).min?

/-- `df["Order Date"].max()`. -/
def max_order_date (v : List Row) : Option Nat :=
  (v.map Row.order_date).max?

/-- `min_date` (app.py lines 64-70): default lower bound of the date range;
falls back to the unfiltered dataset when the categorically filtered view
is empty. -/
def min_date (t : List Row) (fs : FilterState) : Option Nat :=
  if (df_cat_view t fs).isEmpty then min_order_date t
  else min_order_date (df_cat_view t fs)

/-- `max_date` (app.py lines 64-70). -/
def max_date (t : List Row) (fs : FilterState) : Option Nat :=
  if (df_cat_view t fs).isEmpty then max_order_date t
  else max_order_date (df_cat_view t fs)

/-- The sidebar validation (app.py lines 80-81): an error message is shown
when `from_date > to_date`, and execution continues either way. -/
def date_validation_message (fs : FilterState) : Option String :=
  if fs.from_date > fs.to_date then
    some "From Date must be earlier than To Date."
  else none

/-- The date-range filter (app.py lines 84-87): keep rows whose order date
lies within `[from, to]` inclusive. -/
def date_filter (fromD toD : Nat) (v : List Row) : List Row :=
  v.filter (fun r => decide (fromD ≤ r.order_date) && decide (r.order_date ≤ toD))

/-- `df` after the whole filter chain (categorical levels then date range):
the active view every KPI and aggregate is computed from. -/
def active_view (t : List Row) (fs : FilterState) : List Row :=
  date_filter fs.from_date fs.to_date (df_cat_view t fs)

/-- `series.sum()` for the Sales column. -/
def sum_sales (v : List Row) : ℚ :=
  (v.map Row.sales).sum

/-- `series.sum()` for the Quantity column. -/
def sum_quantity (v : List Row) : ℚ :=
  (v.map Row.quantity).sum

/-- `series.sum()` for the Profit column. -/
def sum_profit (v : List Row) : ℚ :=
  (v.map Row.profit).sum

/-- `df_start` (app.py line 89): the rows at the earliest order date of the
view (empty when the view is empty, as `NaT` compares equal to nothing). -/
def df_start (v : List Row) : List Row :=
  match min_order_date v with
  | none => []
  | some d => v.filter (fun r => decide (r.order_date = d))

/-- `df_end` (app.py line 90): the rows at the latest order date of the view. -/
def df_end (v : List Row) : List Row :=
  match max_order_date v with
  | none => []
  | some d => v.filter (fun r => decide (r.order_date = d))

/-- `start_sales` (app.py line 93). -/
def start_sales (v : List Row) : ℚ := sum_sales (df_start v)

/-- `end_sales` (app.py line 94). -/
def end_sales (v : List Row) : ℚ := sum_sales (df_end v)

/-- `start_quantity` (app.py line 96). -/
def start_quantity (v : List Row) : ℚ := sum_quantity (df_start v)

/-- `end_quantity` (app.py line 97). -/
def end_quantity (v : List Row) : ℚ := sum_quantity (df_end v)

/-- `start_profit` (app.py line 99). -/
def start_profit (v : List Row) : ℚ := sum_profit (df_start v)

/-- `end_profit` (app.py line 100). -/
def end_profit (v : List Row) : ℚ := sum_profit (df_end v)

/-- `start_margin` (app.py line 102): percentage margin over the start
partition, saturating to 0 when its sales sum is 0. -/
def start_margin (v : List Row) : ℚ :=
  if sum_sales (df_start v) ≠ 0 then
    (sum_profit (df_start v) / sum_sales (df_start v)) * 100
  else 0

/-- `end_margin` (app.py line 103). -/
def end_margin (v : List Row) : ℚ :=
  if sum_sales (df_end v) ≠ 0 then
    (sum_profit (df_end v) / sum_sales (df_end v)) * 100
  else 0

/-- `sales_growth` (app.py line 106): percentage growth from the start to
the end partition, saturating to 0 when the start value is 0. -/
def sales_growth (v : List Row) : ℚ :=
  if start_sales v ≠ 0 then ((end_sales v - start_sales v) / start_sales v) * 100
  else 0

/-- `quantity_growth` (app.py line 107). -/
def quantity_growth (v : List Row) : ℚ :=
  if start_quantity v ≠ 0 then
    ((end_quantity v - start_quantity v) / start_quantity v) * 100
  else 0

/-- `profit_growth` (app.py line 108). -/
def profit_growth (v : List Row) : ℚ :=
  if start_profit v ≠ 0 then ((end_profit v - start_profit v) / start_profit v) * 100
  else 0

/-- `margin_growth` (app.py line 109). -/
def margin_growth (v : List Row) : ℚ :=
  if start_margin v ≠ 0 then ((end_margin v - start_margin v) / start_margin v) * 100
  else 0

/-- `total_sales` (app.py lines 143-149). -/
def total_sales (v : List Row) : ℚ :=
  if v.isEmpty then 0 else sum_sales v

/-- `total_quantity` (app.py lines 143-150). -/
def total_quantity (v : List Row) : ℚ :=
  if v.isEmpty then 0 else sum_quantity v

/-- `total_profit` (app.py lines 143-151). -/
def total_profit (v : List Row) : ℚ :=
  if v.isEmpty then 0 else sum_profit v

/-- `margin_rate` (app.py lines 143-152): overall profit/sales ratio of the
view, 0 for the empty view and 0 when the sales total is 0. -/
def margin_rate (v : List Row) : ℚ :=
  if v.isEmpty then 0
  else if sum_sales v ≠ 0 then sum_profit v / sum_sales v else 0

/-- One output row of a grouped aggregate: the group key, the summed
measures, and the derived margin rate. -/
structure AggRow (κ : Type) where
  key : κ
  sales : ℚ
  quantity : ℚ
  profit : ℚ
  margin_rate : ℚ
  deriving DecidableEq

/-- The group of rows of `v` whose key equals `k`. -/
def key_group {κ : Type} [DecidableEq κ] (key : Row → Option κ) (v : List Row)
    (k : κ) : List Row :=
  v.filter (fun r => decide (key r = some k))

/-- The summed Sales of the group keyed `k`. -/
def agg_sales {κ : Type} [DecidableEq κ] (key : Row → Option κ) (v : List Row)
    (k : κ) : ℚ :=
  sum_sales (key_group key v k)

/-- The summed Quantity of the group keyed `k`. -/
def agg_quantity {κ : Type} [DecidableEq κ] (key : Row → Option κ) (v : List Row)
    (k : κ) : ℚ :=
  sum_quantity (key_group key v k)

/-- The summed Profit of the group keyed `k`. -/
def agg_profit {κ : Type} [DecidableEq κ] (key : Row → Option κ) (v : List Row)
    (k : κ) : ℚ :=
  sum_profit (key_group key v k)

/-- One output row of the grouped aggregate: the sums for the key's group,
and `margin = Profit / Sales.replace(0, 1)` — the denominator is the sales
sum with 0 replaced by 1 (app.py lines 231, 239, 295). -/
def agg_entry {κ : Type} [DecidableEq κ] (key : Row → Option κ) (v : List Row)
    (k : κ) : AggRow κ :=
  { key := k, sales := agg_sales key v k, quantity := agg_quantity key v k,
    profit := agg_profit key v k,
    margin_rate :=
      agg_profit key v k /
        (if agg_sales key v k = 0 then 1 else agg_sales key v k) }

/-- `df.groupby(key).agg({Sales: sum, Quantity: sum, Profit: sum}).reset_index()`
followed by `margin = Profit / Sales.replace(0, 1)` (app.py lines 224-231,
233-239, 288-295): pandas groupby drops null keys and sorts the distinct
keys ascending. -/
def group_agg {κ : Type} [LinearOrder κ] [DecidableEq κ]
    (key : Row → Option κ) (v : List Row) : List (AggRow κ) :=
  (((v.filterMap key).dedup).insertionSort (· ≤ ·)).map (agg_entry key v)

/-- `daily_grouped` (app.py lines 214-231): empty (with the expected
columns) when the view is empty, else the view grouped by Order Date. -/
def daily_grouped (v : List Row) : List (AggRow Nat) :=
  if v.isEmpty then [] else group_agg (fun r => some r.order_date) v

/-- `product_grouped` (app.py lines 214-239): empty when the view is empty,
else the view grouped by Product Name. -/
def product_grouped (v : List Row) : List (AggRow String) :=
  if v.isEmpty then [] else group_agg (fun r => some r.product_name) v

/-- The KPI chosen by the "Select KPI to display" radio (app.py lines
210-211): the measure column the top-10 sort keys on. -/
inductive Kpi
  | sales
  | quantity
  | profit
  | marginRate
  deriving DecidableEq

/-- The value of the selected KPI column on an aggregate row. -/
def kpi_value {κ : Type} (m : Kpi) (a : AggRow κ) : ℚ :=
  match m with
  | .sales => a.sales
  | .quantity => a.quantity
  | .profit => a.profit
  | .marginRate => a.margin_rate

/-- The "Select Data Granularity" radio (app.py lines 202-207, 280-285). -/
inductive Scale
  | category
  | subCategory
  | product
  deriving DecidableEq

/-- `group_field` (app.py lines 280-285): the column the dynamic grouping
keys on. -/
def group_field_key (s : Scale) : Row → Option String :=
  match s with
  | .category => Row.category
  | .subCategory => Row.sub_category
  | .product => fun r => some r.product_name

/-- `grouped_data` (app.py lines 288-295): the view grouped by the selected
granularity field (computed unconditionally; groupby of an empty table is
empty). -/
def grouped_data (s : Scale) (v : List Row) : List (AggRow String) :=
  group_agg (group_field_key s) v

/-- `state_abbreviation_map` (app.py lines 246-257): the fixed 50-states-
plus-DC name-to-abbreviation table. -/
def state_abbreviation_map : List (String × String) :=
  [("Alabama", "AL"), ("Alaska", "AK"), ("Arizona", "AZ"), ("Arkansas", "AR"),
   ("California", "CA"), ("Colorado", "CO"), ("Connecticut", "CT"),
   ("Delaware", "DE"), ("District of Columbia", "DC"), ("Florida", "FL"),
   ("Georgia", "GA"), ("Hawaii", "HI"), ("Idaho", "ID"), ("Illinois", "IL"),
   ("Indiana", "IN"), ("Iowa", "IA"), ("Kansas", "KS"), ("Kentucky", "KY"),
   ("Louisiana", "LA"), ("Maine", "ME"), ("Maryland", "MD"),
   ("Massachusetts", "MA"), ("Michigan", "MI"), ("Minnesota", "MN"),
   ("Mississippi", "MS"), ("Missouri", "MO"), ("Montana", "MT"),
   ("Nebraska", "NE"), ("Nevada", "NV"), ("New Hampshire", "NH"),
   ("New Jersey", "NJ"), ("New Mexico", "NM"), ("New York", "NY"),
   ("North Carolina", "NC"), ("North Dakota", "ND"), ("Ohio", "OH"),
   ("Oklahoma", "OK"), ("Oregon", "OR"), ("Pennsylvania", "PA"),
   ("Rhode Island", "RI"), ("South Carolina", "SC"), ("South Dakota", "SD"),
   ("Tennessee", "TN"), ("Texas", "TX"), ("Utah", "UT"), ("Vermont", "VT"),
   ("Virginia", "VA"), ("Washington", "WA"), ("West Virginia", "WV"),
   ("Wisconsin", "WI"), ("Wyoming", "WY")]

/-- `df["State"] = df["State"].map(state_abbreviation_map)` (app.py line
260): `Series.map` with a dict sends a value present in the dict to its
image and any other value (a missing name, or a null) to null. -/
def map_state_column (v : List Row) : List Row :=
  v.map (fun r =>
    { r with state := r.state.bind (fun s => state_abbreviation_map.lookup s) })

/-- An order row together with the derived `returned` flag produced by the
loader's Returns join. -/
structure LoadedRow where
  row : Row
  returned : Bool
  deriving DecidableEq

/-- Modelled from the spec: `load_data` in src/app.py (lines 10-17) only
reads the orders sheet and parses dates — the Returns join described in
spec section 4.1 ("Joins the Returns table by order id to derive a boolean
`returned` column on every order row (semijoin/IN-style membership test,
not a value join — does not duplicate or drop order rows)") is in a part
of the repository not present under src/.  Each order row is kept as-is
and tagged with whether its order id occurs in the Returns id list. -/
def load_with_returns (orders : List Row) (returns_ids : List String) :
    List LoadedRow :=
  orders.map (fun r => ⟨r, returns_ids.contains r.order_id⟩)

/-!
Model of `DataFrame.sort_values(by=..., ascending=False)` with the default
`kind="quicksort"` (app.py lines 242, 298).  pandas computes an ascending
argsort of the reversed key column with numpy's introsort and reverses the
resulting indexer (`pandas.core.sorting.nargsort` with `ascending=False`);
numpy's argsort introsort (`aquicksort`) is median-of-3 quicksort with an
insertion-sort cutoff at partitions of at most `SMALL_QUICKSORT = 15`
elements and a heapsort fallback at depth `2 * msb(n)`.  The model returns
`none` where the heapsort fallback would run or the fuel runs out; neither
happens on the inputs evaluated here, so the theorems about concrete
inputs all see `some`.
-/

/-- numpy `npy_get_msb`: index of the most significant set bit. -/
def npy_get_msb (n : Nat) : Nat := Nat.log2 n

/-- Read an entry of the index array (positions as `Int`, mirroring the
pointer arithmetic of the C code; reads are in range on the inputs
evaluated here). -/
def aget (a : Array Nat) (i : Int) : Nat := a.getD i.toNat 0

/-- The sort key stored at position `i` of the index array. -/
def keyat (v : Array ℚ) (a : Array Nat) (i : Int) : ℚ := v.getD (aget a i) 0

/-- `INTP_SWAP` on the index array. -/
def aswap (a : Array Nat) (i j : Int) : Array Nat :=
  let x := aget a i
  let y := aget a j
  (a.setD i.toNat y).setD j.toNat x

/-- `do ++pi; while (LT(v[*pi], vp));` of the numpy partition scan. -/
def scan_right (v : Array ℚ) (a : Array Nat) (vp : ℚ) : Int → Nat → Int
  | p, 0 => p
  | p, fuel+1 =>
    if keyat v a (p + 1) < vp then scan_right v a vp (p + 1) fuel else p + 1

/-- `do --pj; while (LT(vp, v[*pj]));` of the numpy partition scan. -/
def scan_left (v : Array ℚ) (a : Array Nat) (vp : ℚ) : Int → Nat → Int
  | p, 0 => p
  | p, fuel+1 =>
    if vp < keyat v a (p - 1) then scan_left v a vp (p - 1) fuel else p - 1

/-- The exchange loop of the numpy partition step; returns the updated
index array and the final `pi`. -/
def partition_scan (v : Array ℚ) (vp : ℚ) :
    Array Nat → Int → Int → Nat → Array Nat × Int
  | a, p, _, 0 => (a, p)
  | a, p, q, fuel+1 =>
    let p1 := scan_right v a vp p (a.size + 2)
    let q1 := scan_left v a vp q (a.size + 2)
    if p1 ≥ q1 then (a, p1)
    else partition_scan v vp (aswap a p1 q1) p1 q1 fuel

/-- Insert one index into a key-sorted list of indices, after every entry
whose key is not greater — the position numpy's insertion sort shifts it
to (stable on ties). -/
def key_insert (v : Array ℚ) (x : Nat) : List Nat → List Nat
  | [] => [x]
  | y :: ys =>
    if v.getD x 0 < v.getD y 0 then x :: y :: ys else y :: key_insert v x ys

/-- Stable insertion sort of a list of indices by their keys (the
`SMALL_QUICKSORT` base case of numpy's introsort). -/
def insertion_sort_keys (v : Array ℚ) (l : List Nat) : List Nat :=
  l.foldl (fun acc x => key_insert v x acc) []

/-- Insertion-sort the segment `[pl, pr]` (inclusive) of the index array,
leaving the rest unchanged. -/
def insertion_segment (v : Array ℚ) (a : Array Nat) (pl pr : Int) : Array Nat :=
  if pr < pl then a
  else
    let lo := pl.toNat
    let seg := (a.toList.drop lo).take (pr.toNat - lo + 1)
    ((a.toList.take lo) ++ insertion_sort_keys v seg ++
      a.toList.drop (pr.toNat + 1)).toArray

/-- The main loop of numpy's `aquicksort` (argsort introsort): median-of-3
partition while the segment is longer than `SMALL_QUICKSORT = 15`, pushing
the larger half on an explicit stack; insertion sort below the cutoff;
`none` for the depth-limit heapsort fallback (not reached on the inputs
evaluated here). -/
def aqsort_loop (v : Array ℚ) :
    Array Nat → Int → Int → List (Int × Int) → Int → Nat → Option (Array Nat)
  | _, _, _, _, _, 0 => none
  | a, pl, pr, stack, depth, fuel+1 =>
    if pr - pl > 15 then
      if depth < 0 then none
      else
        let pm : Int := pl + (pr - pl) / 2
        let a1 := if keyat v a pm < keyat v a pl then aswap a pm pl else a
        let a2 := if keyat v a1 pr < keyat v a1 pm then aswap a1 pr pm else a1
        let a3 := if keyat v a2 pm < keyat v a2 pl then aswap a2 pm pl else a2
        let vp := keyat v a3 pm
        let a4 := aswap a3 pm (pr - 1)
        let res := partition_scan v vp a4 pl (pr - 1) (a4.size + 2)
        let a5 := res.1
        let p := res.2
        let a6 := aswap a5 p (pr - 1)
        if p - pl < pr - p then
          aqsort_loop v a6 pl (p - 1) ((p + 1, pr) :: stack) (depth - 1) fuel
        else
          aqsort_loop v a6 (p + 1) pr ((pl, p - 1) :: stack) (depth - 1) fuel
    else
      let a1 := insertion_segment v a pl pr
      match stack with
      | [] => some a1
      | (l, r) :: rest => aqsort_loop v a1 l r rest depth fuel

/-- `numpy.argsort(vals, kind="quicksort")`: the permutation that sorts
`vals` ascending, with ties ordered as the introsort happens to leave
them. -/
def np_argsort (vals : List ℚ) : Option (List Nat) :=
  let n := vals.length
  (aqsort_loop vals.toArray (Array.range n) 0 ((n : Int) - 1) []
      (2 * (npy_get_msb n : Int)) (n * n * n + 100)).map Array.toList

/-- `pandas.core.sorting.nargsort(vals, kind="quicksort", ascending=False)`
for a key column without nulls: reverse the values and the positions,
argsort ascending, then reverse the indexer. -/
def nargsort_desc (vals : List ℚ) : Option (List Nat) :=
  let idx_rev := (List.range vals.length).reverse
  (np_argsort vals.reverse).map (fun p =>
    (p.map (fun i => idx_rev.getD i 0)).reverse)

/-- `rows.sort_values(by=kpi, ascending=False)` with the default sort
kind: take the rows in the order of the descending argsort of the selected
KPI column. -/
def sort_values_desc (m : Kpi) (rows : List (AggRow String)) :
    Option (List (AggRow String)) :=
  (nargsort_desc (rows.map (kpi_value m))).map (fun p =>
    p.filterMap (fun i => rows[i]?))

/-- `top_10` (app.py lines 214-220, 242-243): the empty table when the view
is empty, else the first 10 rows of `product_grouped` sorted descending by
the selected KPI. -/
def top_10 (m : Kpi) (v : List Row) : Option (List (AggRow String)) :=
  if v.isEmpty then some []
  else (sort_values_desc m (product_grouped v)).map (fun l => l.take 10)

/-- `top_10_grouped` (app.py lines 298-299): the first 10 rows of
`grouped_data` sorted descending by the selected KPI. -/
def top_10_grouped (m : Kpi) (s : Scale) (v : List Row) :
    Option (List (AggRow String)) :=
  (sort_values_desc m (grouped_data s v)).map (fun l => l.take 10)

/-! Concrete sample data used by the counterexamples and witnesses. -/

/-- A representative order row. -/
def base_row : Row :=
  { order_id := "O-1", order_date := 20240101, region := some "West",
    state := some "California", city := "Los Angeles",
    category := some "Furniture", sub_category := some "Chairs",
    product_name := "Desk", sales := 100, quantity := 1, profit := 10 }

/-- An order row whose sales are 0 but whose profit is nonzero. -/
def row_zero_sales : Row :=
  { base_row with product_name := "Lamp", sales := 0, quantity := 1, profit := 5 }

/-- The filter state leaving every categorical level at "All", with a date
range covering all the sample rows. -/
def fs_all : FilterState :=
  ⟨"All", "All", "All", "All", 20240101, 20241231⟩

/-- A filter state selecting a region absent from the sample data. -/
def fs_nomatch : FilterState :=
  { fs_all with selected_region := "Nowhere" }

/-- A filter state whose From date is after its To date. -/
def fs_backwards : FilterState :=
  { fs_all with from_date := 20240131, to_date := 20240101 }

/-- The earlier order of the spec's growth scenario: same product as
`order_jan31`, order date 2024-01-01, sales 100. -/
def order_jan01 : Row :=
  { base_row with order_date := 20240101, product_name := "Widget", sales := 100 }

/-- The later order of the growth scenario. -/
def order_jan31 : Row :=
  { base_row with order_date := 20240131, product_name := "Widget", sales := 150 }

/-- The two-order dataset of the growth scenario. -/
def two_orders : List Row :=
  [order_jan01, order_jan31]

/-- The filter state of the growth scenario: everything at "All", the date
range exactly covering the two orders. -/
def fs_covering : FilterState :=
  ⟨"All", "All", "All", "All", 20240101, 20240131⟩

/-- 17 distinct products, one row each, with identical measure values: the
selected KPI column is constant, so a stable descending sort would have to
keep them in input order. -/
def tied_products : List Row :=
  ["P01", "P02", "P03", "P04", "P05", "P06", "P07", "P08", "P09", "P10",
   "P11", "P12", "P13", "P14", "P15", "P16", "P17"].map (fun nm =>
    { base_row with product_name := nm, sales := 1, quantity := 1, profit := 2 })

/-- The product-name order in which the code's top-10 actually returns the
17 tied rows. -/
def tied_actual_order : List String :=
  ["P01", "P10", "P16", "P15", "P14", "P13", "P12", "P11", "P09", "P02"]

/-- The product-name order a stable descending sort would return (the first
10 rows of `product_grouped tied_products` in input order). -/
def tied_stable_order : List String :=
  ["P01", "P02", "P03", "P04", "P05", "P06", "P07", "P08", "P09", "P10"]

/-- One aggregate row of the tied-products table: every measure identical
across products, so the top-10 sort key column is constant. -/
def tied_agg (nm : String) : AggRow String :=
  { key := nm, sales := 1, quantity := 1, profit := 2, margin_rate := 2 }

/-- The aggregate-row table the top-10 sort receives for the tied-products
input: 17 rows in product-name order with identical measures (it equals
`product_grouped tied_products`). -/
def tied_agg_rows : List (AggRow String) :=
  ["P01", "P02", "P03", "P04", "P05", "P06", "P07", "P08", "P09", "P10",
   "P11", "P12", "P13", "P14", "P15", "P16", "P17"].map tied_agg

/-! Shared helper lemmas. -/

theorem filter_level_nil (col : Row → Option String) (sel : String) :
    filter_level col sel [] = [] := by
  unfold filter_level
  split <;> rfl

theorem options_of_nil (col : Row → Option String) : options_of col [] = [] := rfl

theorem mem_of_mem_options_of {x : String} {col : Row → Option String}
    {t : List Row} (hx : x ∈ options_of col t) : x ∈ (t.filterMap col).dedup := by
  rwa [options_of, List.mem_insertionSort] at hx

theorem df_filtered_state_of_region_nil {t : List Row} {fs : FilterState}
    (h : df_filtered_region t fs = []) : df_filtered_state t fs = [] := by
  rw [df_filtered_state, h, filter_level_nil]

theorem df_filtered_category_of_state_nil {t : List Row} {fs : FilterState}
    (h : df_filtered_state t fs = []) : df_filtered_category t fs = [] := by
  rw [df_filtered_category, h, filter_level_nil]

theorem df_start_eq_df_end {v : List Row}
    (h : min_order_date v = max_order_date v) : df_start v = df_end v := by
  unfold df_start df_end
  rw [h]

theorem growth_zero_self (s : ℚ) :
    (if s ≠ 0 then ((s - s) / s) * 100 else 0) = 0 := by
  split <;> simp

/-! Theorems for the claims. -/

/-- C8: for the two-order dataset (same product, order dates 2024-01-01
with sales 100 and 2024-01-31 with sales 150) and the all-"All" filter
state whose date range covers both dates, the KPI computation yields
`start_sales = 100`, `end_sales = 150` and `sales_growth = 50`. -/
theorem growth_scenario_two_orders :
    start_sales (active_view two_orders fs_covering) = 100
    ∧ end_sales (active_view two_orders fs_covering) = 150
    ∧ sales_growth (active_view two_orders fs_covering) = 50 := by
  refine ⟨?_, ?_, ?_⟩
  all_goals
    simp [sales_growth, start_sales, end_sales, active_view, date_filter,
      df_cat_view, df_filtered_category, df_filtered_state, df_filtered_region,
      filter_level, two_orders, fs_covering, order_jan01, order_jan31, base_row,
      df_start, df_end, min_order_date, max_order_date, sum_sales, List.filter,
      List.min?, List.max?]
  all_goals norm_num

/-- C9: the default From/To date-range bounds are the minimum and maximum
Order Date of the categorically filtered view, falling back to the bounds
of the unfiltered dataset when that view is empty. -/
theorem date_defaults_fallback (t : List Row) (fs : FilterState) :
    (df_cat_view t fs = [] →
      min_date t fs = min_order_date t ∧ max_date t fs = max_order_date t)
    ∧ (df_cat_view t fs ≠ [] →
      min_date t fs = min_order_date (df_cat_view t fs)
      ∧ max_date t fs = max_order_date (df_cat_view t fs)) := by
  constructor
  · intro h
    rw [min_date, max_date, if_pos (List.isEmpty_iff.2 h),
      if_pos (List.isEmpty_iff.2 h)]
    exact ⟨rfl, rfl⟩
  · intro h
    rw [min_date, max_date, if_neg (fun hc => h (List.isEmpty_iff.1 hc)),
      if_neg (fun hc => h (List.isEmpty_iff.1 hc))]
    exact ⟨rfl, rfl⟩

/-- Witness for C9: on a one-row dataset, the empty branch (a region
selection matching nothing) falls back to the unfiltered bounds, and the
non-empty branch (everything at "All") uses the filtered view's bounds. -/
theorem date_defaults_fallback_witness :
    (min_date [base_row] fs_nomatch = min_order_date [base_row]
      ∧ max_date [base_row] fs_nomatch = max_order_date [base_row])
    ∧ (min_date [base_row] fs_all = min_order_date (df_cat_view [base_row] fs_all)
      ∧ max_date [base_row] fs_all = max_order_date (df_cat_view [base_row] fs_all)) :=
  ⟨(date_defaults_fallback [base_row] fs_nomatch).1 (by decide),
   (date_defaults_fallback [base_row] fs_all).2 (by decide)⟩

/-- C7: when `from_date > to_date` the pipeline surfaces the sidebar
validation message but still applies the date filter as given, which
yields a well-formed empty view (no row's date is in the inverted
inclusive range). -/
theorem backwards_range_validated_not_fatal (t : List Row) (fs : FilterState)
    (h : fs.from_date > fs.to_date) :
    date_validation_message fs = some "From Date must be earlier than To Date."
    ∧ active_view t fs = [] := by
  constructor
  · rw [date_validation_message, if_pos h]
  · rw [active_view, date_filter, List.filter_eq_nil_iff]
    intro r _ hc
    simp only [Bool.and_eq_true, decide_eq_true_eq] at hc
    omega

/-- Witness for C7: the concrete backwards range 2024-01-31..2024-01-01 on
the one-row dataset produces the message and the empty view. -/
theorem backwards_range_validated_not_fatal_witness :
    date_validation_message fs_backwards =
      some "From Date must be earlier than To Date."
    ∧ active_view [base_row] fs_backwards = [] :=
  backwards_range_validated_not_fatal [base_row] fs_backwards (by decide)

/-- C10: the state-abbreviation step rewrites only the State column: the
output has one row per input row, each State value is the dict image of
the old value (its abbreviation when the name is in the 50-states-plus-DC
table, null otherwise, null staying null), and every other column is
unchanged. -/
theorem state_abbreviation_step (v : List Row) :
    (map_state_column v).length = v.length
    ∧ (map_state_column v).map Row.state =
        v.map (fun r => r.state.bind (fun s => state_abbreviation_map.lookup s))
    ∧ (map_state_column v).map Row.order_id = v.map Row.order_id
    ∧ (map_state_column v).map Row.order_date = v.map Row.order_date
    ∧ (map_state_column v).map Row.region = v.map Row.region
    ∧ (map_state_column v).map Row.city = v.map Row.city
    ∧ (map_state_column v).map Row.category = v.map Row.category
    ∧ (map_state_column v).map Row.sub_category = v.map Row.sub_category
    ∧ (map_state_column v).map Row.product_name = v.map Row.product_name
    ∧ (map_state_column v).map Row.sales = v.map Row.sales
    ∧ (map_state_column v).map Row.quantity = v.map Row.quantity
    ∧ (map_state_column v).map Row.profit = v.map Row.profit := by
  refine ⟨by simp [map_state_column], ?_, ?_, ?_, ?_, ?_, ?_, ?_, ?_, ?_, ?_, ?_⟩
    <;> (rw [map_state_column, List.map_map]; rfl)

/-- C2: each categorical level's option set is a subset of the distinct
non-null values of its column among the rows passing all earlier levels
(the options are computed from the previously filtered table), and an
empty upstream table yields an empty option set without error. -/
theorem dependent_option_sets (t : List Row) (fs : FilterState) :
    (∀ x ∈ all_regions t, x ∈ (t.filterMap Row.region).dedup)
    ∧ (∀ x ∈ all_states t fs,
        x ∈ ((df_filtered_region t fs).filterMap Row.state).dedup)
    ∧ (∀ x ∈ all_categories t fs,
        x ∈ ((df_filtered_state t fs).filterMap Row.category).dedup)
    ∧ (∀ x ∈ all_subcats t fs,
        x ∈ ((df_filtered_category t fs).filterMap Row.sub_category).dedup)
    ∧ (t = [] → all_regions t = [])
    ∧ (df_filtered_region t fs = [] → all_states t fs = [])
    ∧ (df_filtered_state t fs = [] → all_categories t fs = [])
    ∧ (df_filtered_category t fs = [] → all_subcats t fs = []) := by
  refine ⟨fun x hx => mem_of_mem_options_of hx,
    fun x hx => mem_of_mem_options_of hx,
    fun x hx => mem_of_mem_options_of hx,
    fun x hx => mem_of_mem_options_of hx, ?_, ?_, ?_, ?_⟩
  · intro h
    rw [all_regions, h, options_of_nil]
  · intro h
    rw [all_states, h, options_of_nil]
  · intro h
    rw [all_categories, h, options_of_nil]
  · intro h
    rw [all_subcats, h, options_of_nil]

/-- Witness for C2: on the one-row dataset with everything at "All", the
offered state "California" is indeed a distinct non-null State value of
the region-filtered table; and selecting a region matching nothing makes
the downstream state option list empty. -/
theorem dependent_option_sets_witness :
    "California" ∈ ((df_filtered_region [base_row] fs_all).filterMap Row.state).dedup
    ∧ all_states [base_row] fs_nomatch = [] :=
  ⟨(dependent_option_sets [base_row] fs_all).2.1 "California" (by decide),
   (dependent_option_sets [base_row] fs_nomatch).2.2.2.2.2.1 (by decide)⟩

/-- C6: the loader's Returns join (modelled from the spec, see
`load_with_returns`) tags every order row with a boolean membership flag:
it neither drops nor duplicates order rows, the flag is exactly "this
row's order id occurs in the Returns id list", and a Returns id absent
from the orders is ignored (it changes nothing and raises nothing). -/
theorem returns_semijoin (orders : List Row) (rids : List String) :
    (load_with_returns orders rids).length = orders.length
    ∧ (load_with_returns orders rids).map LoadedRow.row = orders
    ∧ (∀ lr ∈ load_with_returns orders rids,
        lr.returned = rids.contains lr.row.order_id)
    ∧ (∀ x, x ∉ orders.map Row.order_id →
        load_with_returns orders (x :: rids) = load_with_returns orders rids) := by
  refine ⟨?_, ?_, ?_, ?_⟩
  · simp [load_with_returns]
  · unfold load_with_returns
    rw [List.map_map]
    exact List.map_id' orders
  · intro lr hlr
    unfold load_with_returns at hlr
    obtain ⟨r, _, rfl⟩ := List.mem_map.1 hlr
    rfl
  · intro x hx
    unfold load_with_returns
    apply List.map_congr_left
    intro r hr
    have hne : r.order_id ≠ x :=
      fun he => hx (he ▸ List.mem_map_of_mem Row.order_id hr)
    simp [List.contains_cons, hne]

/-- Witness for C6: with the one-row orders table, the row with order id
"O-1" gets `returned = true` from a Returns list containing "O-1", and
adding the unknown Returns id "O-999" leaves the join's output unchanged. -/
theorem returns_semijoin_witness :
    (LoadedRow.mk base_row true).returned =
      (["O-1"].contains (LoadedRow.mk base_row true).row.order_id)
    ∧ load_with_returns [base_row] ["O-999"] = load_with_returns [base_row] [] :=
  ⟨(returns_semijoin [base_row] ["O-1"]).2.2.1 (LoadedRow.mk base_row true)
      (by simp [load_with_returns, base_row]),
   (returns_semijoin [base_row] []).2.2.2 "O-999" (by decide)⟩

/-- C3: each KPI growth equals `(end - start) / start * 100` when the
start-partition value is nonzero and exactly 0 when it is 0; and when the
view's minimum and maximum order dates coincide the start and end
partitions are identical, so every growth is exactly 0. -/
theorem growth_saturation (v : List Row) :
    (start_sales v = 0 → sales_growth v = 0)
    ∧ (start_sales v ≠ 0 →
        sales_growth v = ((end_sales v - start_sales v) / start_sales v) * 100)
    ∧ (start_quantity v = 0 → quantity_growth v = 0)
    ∧ (start_quantity v ≠ 0 →
        quantity_growth v =
          ((end_quantity v - start_quantity v) / start_quantity v) * 100)
    ∧ (start_profit v = 0 → profit_growth v = 0)
    ∧ (start_profit v ≠ 0 →
        profit_growth v = ((end_profit v - start_profit v) / start_profit v) * 100)
    ∧ (start_margin v = 0 → margin_growth v = 0)
    ∧ (start_margin v ≠ 0 →
        margin_growth v = ((end_margin v - start_margin v) / start_margin v) * 100)
    ∧ (min_order_date v = max_order_date v →
        sales_growth v = 0 ∧ quantity_growth v = 0
        ∧ profit_growth v = 0 ∧ margin_growth v = 0) := by
  refine ⟨?_, ?_, ?_, ?_, ?_, ?_, ?_, ?_, ?_⟩
  · intro h
    simp [sales_growth, h]
  · intro h
    rw [sales_growth, if_pos h]
  · intro h
    simp [quantity_growth, h]
  · intro h
    rw [quantity_growth, if_pos h]
  · intro h
    simp [profit_growth, h]
  · intro h
    rw [profit_growth, if_pos h]
  · intro h
    simp [margin_growth, h]
  · intro h
    rw [margin_growth, if_pos h]
  · intro h
    have hse := df_start_eq_df_end h
    have h1 : end_sales v = start_sales v := by
      rw [start_sales, end_sales, hse]
    have h2 : end_quantity v = start_quantity v := by
      rw [start_quantity, end_quantity, hse]
    have h3 : end_profit v = start_profit v := by
      rw [start_profit, end_profit, hse]
    have h4 : end_margin v = start_margin v := by
      rw [start_margin, end_margin, hse]
    refine ⟨?_, ?_, ?_, ?_⟩
    · rw [sales_growth, h1]
      exact growth_zero_self _
    · rw [quantity_growth, h2]
      exact growth_zero_self _
    · rw [profit_growth, h3]
      exact growth_zero_self _
    · rw [margin_growth, h4]
      exact growth_zero_self _

/-- Witness for C3: on the single-row view the minimum and maximum order
dates coincide and every growth is 0; on the zero-sales single-row view
the start sales are 0 and the sales growth is 0. -/
theorem growth_saturation_witness :
    (sales_growth [base_row] = 0 ∧ quantity_growth [base_row] = 0
      ∧ profit_growth [base_row] = 0 ∧ margin_growth [base_row] = 0)
    ∧ sales_growth [row_zero_sales] = 0 :=
  ⟨(growth_saturation [base_row]).2.2.2.2.2.2.2.2 (by decide),
   (growth_saturation [row_zero_sales]).1
     (by simp [start_sales, df_start, min_order_date, sum_sales,
       row_zero_sales, base_row, List.min?])⟩

theorem agg_entry_margin_of_sales_zero {κ : Type} [DecidableEq κ]
    (key : Row → Option κ) (v : List Row) (k : κ)
    (h : agg_sales key v k = 0) :
    (agg_entry key v k).margin_rate = (agg_entry key v k).profit := by
  show agg_profit key v k /
      (if agg_sales key v k = 0 then 1 else agg_sales key v k) = agg_profit key v k
  rw [if_pos h, div_one]

theorem group_agg_margin {κ : Type} [LinearOrder κ] [DecidableEq κ]
    (key : Row → Option κ) (v : List Row) :
    ∀ a ∈ group_agg key v, a.sales = 0 → a.margin_rate = a.profit := by
  intro a ha h0
  unfold group_agg at ha
  obtain ⟨k, _, rfl⟩ := List.mem_map.1 ha
  exact agg_entry_margin_of_sales_zero key v k h0

/-- C1 counterexample: on a single order row with sales 0 and profit 5, the
product-grouped aggregate has one row with summed sales 0 whose margin
rate is 5 (`Profit / Sales.replace(0, 1)` divides by 1), so "summed sales
0 implies margin rate exactly 0" is false. -/
theorem margin_zero_sales_counterexample :
    product_grouped [row_zero_sales] = [AggRow.mk "Lamp" 0 1 5 5]
    ∧ ¬ (∀ a ∈ product_grouped [row_zero_sales],
          a.sales = 0 → a.margin_rate = 0) := by
  have h : product_grouped [row_zero_sales] = [AggRow.mk "Lamp" 0 1 5 5] := by
    simp [product_grouped, group_agg, agg_entry, agg_sales, agg_quantity,
      agg_profit, key_group, sum_sales, sum_quantity, sum_profit,
      row_zero_sales, base_row, List.insertionSort, List.orderedInsert,
      List.dedup, List.filter]
  refine ⟨h, fun hall => ?_⟩
  have h5 := hall (AggRow.mk "Lamp" 0 1 5 5)
    (by rw [h]; exact List.mem_singleton.2 rfl) rfl
  norm_num at h5

/-- C1 amended: in every grouped aggregate (by date, by product name, or by
the selected granularity field), an output row whose summed sales equal 0
has `margin_rate` equal to its summed profit — the division is by 1, not
saturated to 0 (finite, not NaN or infinity, but the raw profit sum). -/
theorem margin_zero_sales_amended (v : List Row) (s : Scale) :
    (∀ a ∈ daily_grouped v, a.sales = 0 → a.margin_rate = a.profit)
    ∧ (∀ a ∈ product_grouped v, a.sales = 0 → a.margin_rate = a.profit)
    ∧ (∀ a ∈ grouped_data s v, a.sales = 0 → a.margin_rate = a.profit) := by
  refine ⟨?_, ?_, ?_⟩
  · intro a ha
    unfold daily_grouped at ha
    split at ha
    · exact absurd ha (List.not_mem_nil a)
    · exact group_agg_margin _ v a ha
  · intro a ha
    unfold product_grouped at ha
    split at ha
    · exact absurd ha (List.not_mem_nil a)
    · exact group_agg_margin _ v a ha
  · exact group_agg_margin _ v

/-- Witness for C1 (amended): the zero-sales aggregate row of the
single-row dataset has margin rate equal to its profit sum. -/
theorem margin_zero_sales_amended_witness :
    (AggRow.mk "Lamp" (0 : ℚ) 1 5 5).margin_rate =
      (AggRow.mk "Lamp" (0 : ℚ) 1 5 5).profit :=
  (margin_zero_sales_amended [row_zero_sales] Scale.product).2.1
    (AggRow.mk "Lamp" 0 1 5 5)
    (by simp [product_grouped, group_agg, agg_entry, agg_sales, agg_quantity,
      agg_profit, key_group, sum_sales, sum_quantity, sum_profit,
      row_zero_sales, base_row, List.insertionSort, List.orderedInsert,
      List.dedup, List.filter])
    rfl

/-- C4: every filter state that empties the active view yields a
well-formed result: all KPI totals, snapshot values and growths are 0, the
grouped tables and the top 10 are empty, and every option list computed
below an emptying categorical level is empty. -/
theorem empty_view_wellformed (t : List Row) (fs : FilterState) (m : Kpi)
    (s : Scale) (h : active_view t fs = []) :
    (total_sales (active_view t fs) = 0 ∧ total_quantity (active_view t fs) = 0
      ∧ total_profit (active_view t fs) = 0 ∧ margin_rate (active_view t fs) = 0
      ∧ start_sales (active_view t fs) = 0 ∧ end_sales (active_view t fs) = 0
      ∧ start_quantity (active_view t fs) = 0
      ∧ end_quantity (active_view t fs) = 0
      ∧ start_profit (active_view t fs) = 0 ∧ end_profit (active_view t fs) = 0
      ∧ start_margin (active_view t fs) = 0 ∧ end_margin (active_view t fs) = 0
      ∧ sales_growth (active_view t fs) = 0
      ∧ quantity_growth (active_view t fs) = 0
      ∧ profit_growth (active_view t fs) = 0
      ∧ margin_growth (active_view t fs) = 0)
    ∧ (daily_grouped (active_view t fs) = []
      ∧ product_grouped (active_view t fs) = []
      ∧ grouped_data s (active_view t fs) = []
      ∧ top_10 m (active_view t fs) = some [])
    ∧ ((df_filtered_region t fs = [] →
          all_states t fs = [] ∧ all_categories t fs = []
          ∧ all_subcats t fs = [])
      ∧ (df_filtered_state t fs = [] →
          all_categories t fs = [] ∧ all_subcats t fs = [])
      ∧ (df_filtered_category t fs = [] → all_subcats t fs = [])) := by
  refine ⟨?_, ?_, ?_, ?_, ?_⟩
  · rw [h]
    decide
  · rw [h]
    exact ⟨rfl, rfl, rfl, rfl⟩
  · intro h1
    have h2 := df_filtered_state_of_region_nil h1
    have h3 := df_filtered_category_of_state_nil h2
    exact ⟨by rw [all_states, h1, options_of_nil],
      by rw [all_categories, h2, options_of_nil],
      by rw [all_subcats, h3, options_of_nil]⟩
  · intro h2
    have h3 := df_filtered_category_of_state_nil h2
    exact ⟨by rw [all_categories, h2, options_of_nil],
      by rw [all_subcats, h3, options_of_nil]⟩
  · intro h3
    exact by rw [all_subcats, h3, options_of_nil]

/-- Witness for C4: a region selection matching nothing empties the view;
the totals are 0, the top 10 is the empty table and the sub-category
option list is empty. -/
theorem empty_view_wellformed_witness :
    total_sales (active_view [base_row] fs_nomatch) = 0
    ∧ top_10 Kpi.sales (active_view [base_row] fs_nomatch) = some []
    ∧ all_subcats [base_row] fs_nomatch = [] :=
  ⟨(empty_view_wellformed [base_row] fs_nomatch Kpi.sales Scale.category
      (by decide)).1.1,
   (empty_view_wellformed [base_row] fs_nomatch Kpi.sales Scale.category
      (by decide)).2.1.2.2.2,
   (empty_view_wellformed [base_row] fs_nomatch Kpi.sales Scale.category
      (by decide)).2.2.2.2 (by decide)⟩

theorem product_grouped_tied : product_grouped tied_products = tied_agg_rows := by
  have hkeys : ((tied_products.filterMap
      (fun r => some r.product_name)).dedup).insertionSort (· ≤ ·) =
      ["P01", "P02", "P03", "P04", "P05", "P06", "P07", "P08", "P09", "P10",
       "P11", "P12", "P13", "P14", "P15", "P16", "P17"] := by
    simp [tied_products, base_row, List.insertionSort, List.orderedInsert]
    all_goals decide
  unfold product_grouped
  rw [if_neg (by decide)]
  unfold group_agg
  rw [hkeys, tied_agg_rows]
  apply List.map_congr_left
  intro nm hnm
  fin_cases hnm <;>
    · simp [agg_entry, agg_sales, agg_quantity, agg_profit, key_group,
        sum_sales, sum_quantity, sum_profit, tied_products, tied_agg,
        base_row, List.filter]

/-- C5: evaluation of the code's top-10 at a tied input.  For 17 products
with identical measures, `product_grouped` is 17 rows in product-name
order with a constant Sales column; the code's top 10 (pandas
`sort_values` with the default quicksort, descending, then `head(10)`)
returns the tied rows in the order P01, P10, P16, P15, ... — not the
input order P01..P10 that the claimed stable sort would preserve. -/
theorem top10_tie_order_not_stable :
    product_grouped tied_products = tied_agg_rows
    ∧ tied_agg_rows.map (kpi_value Kpi.sales) = List.replicate 17 1
    ∧ (top_10 Kpi.sales tied_products).map (fun l => l.map AggRow.key) =
        some tied_actual_order
    ∧ tied_actual_order ≠ tied_stable_order := by
  refine ⟨product_grouped_tied, by decide, ?_, by decide⟩
  unfold top_10
  rw [if_neg (by decide), product_grouped_tied]
  decide

end Superstore
